import Mathlib

/-!
Shallow embedding of the PD-tech UI components (Nav, FClientProfile,
DocumentsUpload from src/src/components/Nav.tsx) for verification.

Handlers become pure functions from their inputs, the relevant backend
state, and the outcome of each remote call (supabase never throws: every
call returns a data/error pair, here an `Option`) to the ordered list of
observable effects they perform plus their resulting view state.
-/

namespace PDTech

/-- The metadata row passed to `supabase.from('documents').insert([...])`,
with exactly the nine fields both upload handlers send. -/
structure DocumentInsert where
  client_id : String
  employee_id : String
  document_type : String
  description : String
  file_name : String
  file_url : String
  file_path : String
  file_type : String
  file_size : Nat
  deriving Repr, DecidableEq

/-- An observable effect of a UI handler: a remote database or storage
call, a browser interaction, or a session-store operation. Effects are
listed in the order the handler performs them (each remote call is
awaited before the next within one handler). -/
inductive Effect where
  | dbSelect (table : String) (filters : List (String × String)) : Effect
  | dbInsertDocument (row : DocumentInsert) : Effect
  | dbUpdate (table : String) (filters : List (String × String)) : Effect
  | dbDelete (table : String) (filters : List (String × String)) : Effect
  | storageListBuckets : Effect
  | storageCreateBucket (bucket : String) : Effect
  | storageUpload (bucket : String) (path : String) : Effect
  | storageGetPublicUrl (bucket : String) (path : String) : Effect
  | storageRemove (bucket : String) (paths : List String) : Effect
  | consoleError (msg : String) : Effect
  | alertBox (msg : String) : Effect
  | openWindow (url : String) : Effect
  | storeLogout : Effect
  | localStorageClear : Effect
  | sessionStorageClear : Effect
  | navigate (route : String) : Effect
  deriving Repr, DecidableEq

/-- Whether an effect is a remote call (database or storage), as opposed
to a purely client-side browser or store interaction. -/
def Effect.isRemoteCall : Effect → Bool
  | .dbSelect _ _ => true
  | .dbInsertDocument _ => true
  | .dbUpdate _ _ => true
  | .dbDelete _ _ => true
  | .storageListBuckets => true
  | .storageCreateBucket _ => true
  | .storageUpload _ _ => true
  | .storageGetPublicUrl _ _ => true
  | .storageRemove _ _ => true
  | _ => false

/-- The user-visible alert messages in an effect trace (`alert(...)`). -/
def alertsOf (tr : List Effect) : List String :=
  tr.filterMap fun e =>
    match e with
    | .alertBox m => some m
    | _ => none

/-- JavaScript falsiness of an optional string field (`!user?.id`,
`!id`): missing or the empty string. -/
def strFalsy : Option String → Bool
  | none => true
  | some s => s.isEmpty

/-- `.single()` on a query result: returns the row when exactly one row
matches, `none` (with an error, which the callers here never throw on)
otherwise. -/
def singleRow {α : Type} : List α → Option α
  | [x] => some x
  | _ => none

/-- The authenticated session user exposed by the store. -/
structure SessionUser where
  id : String
  full_name : String
  email : String
  deriving Repr, DecidableEq

/-! ### C3: assignment check (`checkAssignment`, FClientProfile) -/

/-- `checkAssignment` from FClientProfile. The `client_assignments`
table is its existence-only backend state (spec data model: "client
reference + employee reference, existence-only record"), modelled as a
predicate on (client id, employee id) pairs; `.single()` on the
two-`eq` query returns a row exactly when the pair is present. Returns
the new `isAssigned` flag together with the remote calls made. -/
def checkAssignment (role : String) (user : Option SessionUser) (id : Option String)
    (assignments : String → String → Bool) : Bool × List Effect :=
  if role == "admin" || role == "finance.employee" then
    (true, [])
  else if strFalsy (user.map (·.id)) || strFalsy id then
    (false, [])
  else
    match user, id with
    | some u, some cid =>
        (assignments cid u.id,
         [.dbSelect "client_assignments" [("client_id", cid), ("employee_id", u.id)]])
    | _, _ => (false, [])

/-! ### C5 / C10: profile load (`loadClientData`, FClientProfile) -/

/-- A row of the `clients` table. -/
structure ClientRow where
  id : String
  name : String
  company : String
  address : String
  status : String
  deriving Repr, DecidableEq

/-- A row of the `contact_persons` table. -/
structure ContactRow where
  id : String
  client_id : String
  name : String
  position : String
  email : String
  phone : String
  created_at : Nat
  deriving Repr, DecidableEq

/-- A row of the `quotations` table (fields used by the profile view). -/
structure QuotationRow where
  id : String
  client_id : String
  status : String
  amount : String
  start_date : String
  end_date : String
  description : String
  deriving Repr, DecidableEq

/-- The backend tables `loadClientData` can reach. -/
structure Db where
  clients : List ClientRow
  contact_persons : List ContactRow
  quotations : List QuotationRow
  deriving Repr, DecidableEq

/-- The filters of the quotation query `loadClientData` builds:
`.eq('client_id', id)` always, then `.eq('status', 'approved')` added
exactly when the role is neither `admin` nor `head`. -/
def quotationQueryFilters (clientId : String) (role : String) : List (String × String) :=
  [("client_id", clientId)] ++
    (if role != "admin" && role != "head" then [("status", "approved")] else [])

/-- Newest-first ordering used by `.order('created_at', { ascending: false })`. -/
def contactNewestFirst (a b : ContactRow) : Prop := b.created_at ≤ a.created_at

instance : DecidableRel contactNewestFirst := fun a b => Nat.decLe b.created_at a.created_at

instance : IsTotal ContactRow contactNewestFirst :=
  ⟨fun a b => Nat.le_total b.created_at a.created_at⟩

instance : IsTrans ContactRow contactNewestFirst :=
  ⟨fun _ _ _ hab hbc => Nat.le_trans hbc hab⟩

/-- The view state of FClientProfile that load/mutation handlers touch. -/
structure ProfileState where
  client : Option ClientRow
  contactPersons : List ContactRow
  documentsShown : List String
  isAssigned : Bool
  deriving Repr, DecidableEq

/-- `loadClientData` from FClientProfile: fetch the client row with
`.single()`, set it; fetch the contact persons newest-first, set them;
then build (but never execute, await, or read) the quotation query with
`quotationQueryFilters`. Returns the new state and the remote calls
actually executed. -/
def loadClientData (db : Db) (clientId : String) (role : String)
    (st : ProfileState) : ProfileState × List Effect :=
  let clientData := singleRow (db.clients.filter (fun c => c.id == clientId))
  let contactData :=
    List.insertionSort contactNewestFirst
      (db.contact_persons.filter (fun c => c.client_id == clientId))
  let _quotationQuery := quotationQueryFilters clientId role
  ({ st with client := clientData, contactPersons := contactData },
   [.dbSelect "clients" [("id", clientId)],
    .dbSelect "contact_persons" [("client_id", clientId)]])

/-! ### C7: logout (`handleLogout`, Nav) -/

/-- The browser/app state the logout handler touches. -/
structure AppState where
  storeUser : Option SessionUser
  storeRole : String
  localStorage : List (String × String)
  sessionStorage : List (String × String)
  route : String
  deriving Repr, DecidableEq

/-- Modelled from the spec: `store.logout()` lives in `../lib/store`,
which is not under src/; the spec says the session store is "cleared on
logout" / "torn down at logout", so it clears the stored user and role. -/
def storeLogoutAction (s : AppState) : AppState :=
  { s with storeUser := none, storeRole := "" }

/-- `handleLogout` from Nav: `store.logout()`, `localStorage.clear()`,
`sessionStorage.clear()`, `navigate('/login')`, in that order,
unconditionally. -/
def handleLogout (s : AppState) : AppState × List Effect :=
  let s1 := storeLogoutAction s
  let s2 := { s1 with localStorage := [] }
  let s3 := { s2 with sessionStorage := [] }
  let s4 := { s3 with route := "/login" }
  (s4, [.storeLogout, .localStorageClear, .sessionStorageClear, .navigate "/login"])

/-! ### C8: role-gated controls (FClientProfile render) -/

/-- The contact "Edit" control: rendered under
`role === 'finance.employee'`. -/
def showContactEditButton (role : String) : Bool :=
  role == "finance.employee"

/-- The "Completed" action button: rendered under
`role === 'finance.employee'`. -/
def showCompletedButton (role : String) : Bool :=
  role == "finance.employee"

/-- The document delete control: rendered under
`role === 'admin' || role === 'finance.employee'`. -/
def showDeleteDocumentButton (role : String) : Bool :=
  role == "admin" || role == "finance.employee"

/-! ### C1 / C2: documents (FClientProfile) -/

/-- A row of the `documents` table. -/
structure DocumentRow where
  id : String
  client_id : String
  employee_id : String
  document_type : String
  description : String
  file_name : String
  file_url : String
  file_path : String
  file_type : String
  file_size : Nat
  created_at : Nat
  deriving Repr, DecidableEq

/-- Backend state the document handlers touch: the `documents` table and
the object paths stored in the `documents` bucket. -/
structure DocServerState where
  documents : List DocumentRow
  storageObjects : List String
  deriving Repr, DecidableEq

/-- Newest-first ordering used by `.order('created_at', { ascending: false })`
in `loadDocuments`. -/
def docNewestFirst (a b : DocumentRow) : Prop := b.created_at ≤ a.created_at

instance : DecidableRel docNewestFirst := fun a b => Nat.decLe b.created_at a.created_at

instance : IsTotal DocumentRow docNewestFirst :=
  ⟨fun a b => Nat.le_total b.created_at a.created_at⟩

instance : IsTrans DocumentRow docNewestFirst :=
  ⟨fun _ _ _ hab hbc => Nat.le_trans hbc hab⟩

/-- The remote call made by `loadDocuments`. -/
def loadDocumentsQuery (clientId : String) : Effect :=
  .dbSelect "documents" [("client_id", clientId)]

/-- What `loadDocuments` re-fetches: the client's document rows,
newest first. -/
def documentsFor (s : DocServerState) (clientId : String) : List DocumentRow :=
  List.insertionSort docNewestFirst
    (s.documents.filter (fun d => d.client_id == clientId))

/-- Result of `handleDeleteDocument`: new backend state, the effects in
order, and the re-fetched document list when `loadDocuments` ran. -/
structure DeleteResult where
  server : DocServerState
  effects : List Effect
  reloadedDocuments : Option (List DocumentRow)
  deriving Repr, DecidableEq

/-- Injected outcomes of the two fallible remote calls in
`handleDeleteDocument`: `some msg` is an error with that message. -/
structure DeleteOutcomes where
  storageError : Option String
  dbError : Option String
  deriving Repr, DecidableEq

/-- `handleDeleteDocument` from FClientProfile: confirm, remove the
stored object from the `documents` bucket, then delete the `documents`
row, then `loadDocuments`; whichever call errors first throws, the
`catch` only logs (`console.error`), and the remaining steps are
skipped. -/
def handleDeleteDocument (s : DocServerState) (clientId : String)
    (documentId filePath : String) (confirmOk : Bool)
    (out : DeleteOutcomes) : DeleteResult :=
  if !confirmOk then
    { server := s, effects := [], reloadedDocuments := none }
  else
    let removeEff := Effect.storageRemove "documents" [filePath]
    match out.storageError with
    | some msg =>
        { server := s,
          effects := [removeEff, .consoleError ("Error deleting document: " ++ msg)],
          reloadedDocuments := none }
    | none =>
      let s1 := { s with storageObjects := s.storageObjects.filter (fun p => p != filePath) }
      let delEff := Effect.dbDelete "documents" [("id", documentId)]
      match out.dbError with
      | some msg =>
          { server := s1,
            effects := [removeEff, delEff,
              .consoleError ("Error deleting document: " ++ msg)],
            reloadedDocuments := none }
      | none =>
        let s2 := { s1 with documents := s1.documents.filter (fun d => d.id != documentId) }
        { server := s2,
          effects := [removeEff, delEff, loadDocumentsQuery clientId],
          reloadedDocuments := some (documentsFor s2 clientId) }

/-- A selected file (`File`): name, MIME type, size. -/
structure FileData where
  name : String
  mime_type : String
  byte_size : Nat
  deriving Repr, DecidableEq

/-- JavaScript `str.split('.')` over the character list: split at every
dot, keeping empty segments. -/
def splitDotAux : List Char → List Char → List String
  | [], acc => [String.mk acc.reverse]
  | c :: cs, acc =>
      if c == Char.ofNat 46 then String.mk acc.reverse :: splitDotAux cs []
      else splitDotAux cs (c :: acc)

/-- Last element of a list of strings, with a default (JS `.pop()` of a
nonempty split result). -/
def lastOrDefault : List String → String → String
  | [], d => d
  | [x], _ => x
  | _ :: x :: xs, d => lastOrDefault (x :: xs) d

/-- JavaScript `file.name.split('.').pop()`. -/
def fileExtOf (fileName : String) : String :=
  lastOrDefault (splitDotAux fileName.toList []) ""

/-- Injected outcomes of the remote calls in `handleUploadDocument`:
`bucketList` is the `data` of `listBuckets` (`none` when that call
failed and returned a null `data`, which the code does not check);
`createBucketError` is likewise unchecked; `publicUrl` is whatever
`getPublicUrl` returns for the uploaded path. -/
structure UploadOutcomes where
  bucketList : Option (List String)
  createBucketError : Option String
  uploadError : Option String
  insertError : Option String
  publicUrl : String
  deriving Repr, DecidableEq

/-- The metadata row `handleUploadDocument` inserts. -/
def uploadRow (clientId uid : String) (f : FileData) (docType descr : String)
    (now : Nat) (out : UploadOutcomes) : DocumentInsert :=
  { client_id := clientId
    employee_id := uid
    document_type := docType
    description := descr
    file_name := f.name
    file_url := out.publicUrl
    file_path := uid ++ "/" ++ toString now ++ "." ++ fileExtOf f.name
    file_type := f.mime_type
    file_size := f.byte_size }

/-- `handleUploadDocument` from FClientProfile. Guard: returns at once
when no file is selected or there is no session user (no effect at all,
nothing shown). Otherwise: `listBuckets`; `createBucket('documents')`
when the returned list is missing (or `listBuckets` returned no data) —
its error is ignored; upload to `userId/timestamp.ext`; `getPublicUrl`;
insert the metadata row; reload the documents. An error thrown by the
upload or the insert is caught, logged, and surfaced via `alert`. -/
def handleUploadDocument (clientId : String) (user : Option SessionUser)
    (file : Option FileData) (docType descr : String) (now : Nat)
    (out : UploadOutcomes) : List Effect :=
  match file, user with
  | some f, some u =>
    if u.id.isEmpty then [] else
    let bucketEffs :=
      Effect.storageListBuckets ::
        (if (out.bucketList.getD []).contains "documents" then []
         else [Effect.storageCreateBucket "documents"])
    let path := u.id ++ "/" ++ toString now ++ "." ++ fileExtOf f.name
    match out.uploadError with
    | some m =>
        bucketEffs ++ [.storageUpload "documents" path,
          .consoleError ("Error uploading document: " ++ m),
          .alertBox ("Upload failed: " ++ m)]
    | none =>
      let row := uploadRow clientId u.id f docType descr now out
      match out.insertError with
      | some m =>
          bucketEffs ++ [.storageUpload "documents" path,
            .storageGetPublicUrl "documents" path,
            .dbInsertDocument row,
            .consoleError ("Error uploading document: " ++ m),
            .alertBox ("Upload failed: " ++ m)]
      | none =>
          bucketEffs ++ [.storageUpload "documents" path,
            .storageGetPublicUrl "documents" path,
            .dbInsertDocument row,
            loadDocumentsQuery clientId]
  | _, _ => []

/-! ### C4 / C6: standalone upload form (DocumentsUpload) -/

/-- The `documentData` form state of DocumentsUpload. -/
structure DocumentData where
  client_id : String
  employee_id : String
  document_type : String
  description : String
  file : Option FileData
  deriving Repr, DecidableEq

/-- Injected outcomes of the remote calls in `handleSubmit`. -/
structure SubmitOutcomes where
  uploadError : Option String
  insertError : Option String
  publicUrl : String
  deriving Repr, DecidableEq

/-- Result of `handleSubmit`: effects in order plus the final
`uploadError` / `uploadSuccess` banner state and whether the form was
cleared. -/
structure SubmitResult where
  effects : List Effect
  uploadErrorMsg : Option String
  uploadSuccess : Bool
  formCleared : Bool
  deriving Repr, DecidableEq

/-- The metadata row `handleSubmit` inserts; `employee_id` is
`user?.id || documentData.employee_id` (JS `||`: the manual field is
used when there is no session user or its id is empty). -/
def submitRow (data : DocumentData) (f : FileData) (user : Option SessionUser)
    (now : Nat) (out : SubmitOutcomes) : DocumentInsert :=
  { client_id := data.client_id
    employee_id :=
      match user with
      | some u => if u.id.isEmpty then data.employee_id else u.id
      | none => data.employee_id
    document_type := data.document_type
    description := data.description
    file_name := f.name
    file_url := out.publicUrl
    file_path := "documents/" ++ data.client_id ++ "_" ++ toString now ++ "." ++ fileExtOf f.name
    file_type := f.mime_type
    file_size := f.byte_size }

/-- `handleSubmit` from DocumentsUpload: with no file it sets
`uploadError` to "Please select a file to upload" and returns before any
remote call; otherwise it uploads to
`documents/clientId_timestamp.ext`, gets the public URL, and inserts the
metadata row; a thrown error is logged and stored in `uploadError`; on
success the success banner is shown and the form cleared. -/
def handleSubmit (data : DocumentData) (user : Option SessionUser)
    (now : Nat) (out : SubmitOutcomes) : SubmitResult :=
  match data.file with
  | none =>
      { effects := [], uploadErrorMsg := some "Please select a file to upload",
        uploadSuccess := false, formCleared := false }
  | some f =>
    let path := "documents/" ++ data.client_id ++ "_" ++ toString now ++ "." ++ fileExtOf f.name
    match out.uploadError with
    | some m =>
        { effects := [.storageUpload "documents" path,
            .consoleError ("Error uploading document: " ++ m)],
          uploadErrorMsg := some m, uploadSuccess := false, formCleared := false }
    | none =>
      let row := submitRow data f user now out
      match out.insertError with
      | some m =>
          { effects := [.storageUpload "documents" path,
              .storageGetPublicUrl "documents" path,
              .dbInsertDocument row,
              .consoleError ("Error uploading document: " ++ m)],
            uploadErrorMsg := some m, uploadSuccess := false, formCleared := false }
      | none =>
          { effects := [.storageUpload "documents" path,
              .storageGetPublicUrl "documents" path,
              .dbInsertDocument row],
            uploadErrorMsg := none, uploadSuccess := true, formCleared := true }

/-- Ascending name order used by `.order('name', { ascending: true })`
in `fetchClients`. -/
def clientNameLe (a b : ClientRow) : Prop := a.name ≤ b.name

instance : DecidableRel clientNameLe := fun a b => String.decidableLE a.name b.name

instance : IsTotal ClientRow clientNameLe := ⟨fun a b => le_total a.name b.name⟩

instance : IsTrans ClientRow clientNameLe := ⟨fun _ _ _ hab hbc => le_trans hab hbc⟩

/-- `fetchClients` from DocumentsUpload: selects the clients with
`.eq('status', 'ecomplete')`, ordered by name ascending. -/
def fetchClients (clientsTable : List ClientRow) : List ClientRow :=
  List.insertionSort clientNameLe
    (clientsTable.filter (fun c => c.status == "ecomplete"))

/-- The remote call made by `fetchClients`. -/
def fetchClientsQuery : Effect :=
  .dbSelect "clients" [("status", "ecomplete")]

/-- The table update performed by `handleStatusUpdate('completed')` in
FClientProfile: `.update({ status: newStatus }).eq('id', id)` with
`newStatus` fixed to `'completed'` by its type. -/
def handleStatusUpdate (clientsTable : List ClientRow) (clientId : String) :
    List ClientRow :=
  clientsTable.map fun c =>
    if c.id == clientId then { c with status := "completed" } else c

/-! ### C9: send document / send email (FClientProfile) -/

/-- Uppercase hexadecimal digit, as used by `encodeURIComponent`. -/
def hexDigit (n : Nat) : Char :=
  if n < 10 then Char.ofNat (48 + n) else Char.ofNat (55 + n)

/-- UTF-8 byte sequence of a code point. -/
def utf8Bytes (n : Nat) : List Nat :=
  if n < 128 then [n]
  else if n < 2048 then [192 + n / 64, 128 + n % 64]
  else if n < 65536 then [224 + n / 4096, 128 + n / 64 % 64, 128 + n % 64]
  else [240 + n / 262144, 128 + n / 4096 % 64, 128 + n / 64 % 64, 128 + n % 64]

/-- The characters `encodeURIComponent` leaves unescaped:
letters, digits, and `- _ . ! ~ * ' ( )`. -/
def isUriUnescaped (c : Char) : Bool :=
  c.isAlpha || c.isDigit ||
  c == Char.ofNat 45 || c == Char.ofNat 95 || c == Char.ofNat 46 ||
  c == Char.ofNat 33 || c == Char.ofNat 126 || c == Char.ofNat 42 ||
  c == Char.ofNat 39 || c == Char.ofNat 40 || c == Char.ofNat 41

/-- Percent-escape of one byte, `%XY` with uppercase hex. -/
def byteEscape (b : Nat) : String :=
  String.mk [Char.ofNat 37, hexDigit (b / 16 % 16), hexDigit (b % 16)]

/-- JavaScript `encodeURIComponent`. -/
def encodeURIComponent (s : String) : String :=
  String.join (s.toList.map fun c =>
    if isUriUnescaped c then String.singleton c
    else String.join ((utf8Bytes c.toNat).map byteEscape))

/-- The Gmail compose URL both send handlers open:
recipient, subject and body as query parameters. -/
def gmailComposeUrl (recipient subject body : String) : String :=
  "https://mail.google.com/mail/?view=cm&fs=1&to=" ++ recipient ++
    "&su=" ++ subject ++ "&body=" ++ body

/-- `${user?.full_name || 'Your Representative'}`. -/
def senderName (user : Option SessionUser) : String :=
  match user with
  | some u => if u.full_name.isEmpty then "Your Representative" else u.full_name
  | none => "Your Representative"

/-- `${user?.email || ''}`. -/
def senderEmail (user : Option SessionUser) : String :=
  match user with
  | some u => u.email
  | none => ""

/-- The document summary shown by `handleSendDocument` (fields used). -/
structure DocumentView where
  file_name : String
  document_type : String
  description : String
  deriving Repr, DecidableEq

/-- The subject `handleSendDocument` builds. -/
def sendDocumentSubject (d : DocumentView) : String :=
  encodeURIComponent ("Document: " ++ d.file_name)

/-- The body template of `handleSendDocument` before URI encoding
(`${document.description || 'N/A'}`: the empty string falls back to N/A). -/
def sendDocumentBodyPlain (user : Option SessionUser) (d : DocumentView) : String :=
  "Dear Client,\n\n" ++
    "Please find attached the document you requested.\n\n" ++
    "Document Type: " ++ d.document_type ++ "\n" ++
    "Description: " ++ (if d.description.isEmpty then "N/A" else d.description) ++ "\n\n" ++
    "Best regards,\n" ++
    senderName user ++ "\n" ++
    senderEmail user

/-- The body `handleSendDocument` builds. -/
def sendDocumentBody (user : Option SessionUser) (d : DocumentView) : String :=
  encodeURIComponent (sendDocumentBodyPlain user d)

/-- `handleSendDocument` from FClientProfile: builds the Gmail compose
link and opens it in a new browsing context; its only effect. -/
def handleSendDocument (user : Option SessionUser) (d : DocumentView)
    (contactEmail : String) : List Effect :=
  [.openWindow (gmailComposeUrl contactEmail (sendDocumentSubject d)
      (sendDocumentBody user d))]

/-- One `quotation_assets` entry joined with its asset item. -/
structure QuotationAssetView where
  item : String
  quantity : Nat
  deriving Repr, DecidableEq

/-- The quotation data `handleSendEmail` summarizes. `amount`,
`start_date` and `end_date` are the backend values as rendered into the
template. -/
structure QuotationView where
  id : String
  amount : String
  start_date : String
  end_date : String
  description : String
  quotation_assets : List QuotationAssetView
  deriving Repr, DecidableEq

/-- The subject `handleSendEmail` builds. -/
def sendEmailSubject (q : QuotationView) : String :=
  encodeURIComponent ("Quotation #" ++ q.id ++ " Details")

/-- The body template of `handleSendEmail` before URI encoding.
`fmtDate` stands for the browser's `new Date(·).toLocaleDateString()`,
an external collaborator. -/
def sendEmailBodyPlain (fmtDate : String → String) (user : Option SessionUser)
    (q : QuotationView) : String :=
  "Dear Client,\n\n" ++
    "Please find below the document:\n\n" ++
    "Amount: ₹" ++ q.amount ++ "/-\n" ++
    "Valid From: " ++ fmtDate q.start_date ++ "\n" ++
    "Valid Until: " ++ fmtDate q.end_date ++ "\n" ++
    "Description: " ++ q.description ++ "\n\n" ++
    "Assets Included:\n" ++
    String.intercalate "\n"
      (q.quotation_assets.map fun a =>
        "- " ++ a.item ++ " (Qty: " ++ toString a.quantity ++ ")") ++
    "\n\n" ++
    "Best regards,\n" ++
    senderName user ++ "\n" ++
    senderEmail user

/-- The body `handleSendEmail` builds. -/
def sendEmailBody (fmtDate : String → String) (user : Option SessionUser)
    (q : QuotationView) : String :=
  encodeURIComponent (sendEmailBodyPlain fmtDate user q)

/-- `handleSendEmail` from FClientProfile: builds the Gmail compose link
for a quotation and opens it; its only effect. -/
def handleSendEmail (fmtDate : String → String) (user : Option SessionUser)
    (email : String) (q : QuotationView) : List Effect :=
  [.openWindow (gmailComposeUrl email (sendEmailSubject q)
      (sendEmailBody fmtDate user q))]

/-! ## Theorems -/

/-- C3: `checkAssignment` returns assigned with no remote lookup for
role "admin" or "finance.employee"; for every other role it is assigned
exactly when a `client_assignments` row exists for the client id and
the session user's id, and a missing session user or client id (or a
missing row) yields not assigned. -/
theorem C3_assignment_check (role : String) (user : Option SessionUser)
    (id : Option String) (asg : String → String → Bool) :
    ((role = "admin" ∨ role = "finance.employee") →
        checkAssignment role user id asg = (true, []))
    ∧ (role ≠ "admin" → role ≠ "finance.employee" →
        ((strFalsy (user.map (·.id)) = true ∨ strFalsy id = true) →
            (checkAssignment role user id asg).1 = false)
        ∧ (∀ u cid, user = some u → id = some cid →
            u.id.isEmpty = false → cid.isEmpty = false →
            (checkAssignment role user id asg).1 = asg cid u.id)) := by
  constructor
  · rintro (rfl | rfl) <;> simp [checkAssignment]
  · intro h1 h2
    have hb : (role == "admin" || role == "finance.employee") = false := by
      simp [h1, h2]
    constructor
    · rintro (hf | hf) <;> simp [checkAssignment, hb, hf]
    · rintro u cid rfl rfl hu hc
      simp [checkAssignment, hb, strFalsy, hu, hc]

/-- C3 witness: with role "employee", user u1 and client c1, the check
is exactly the existence of the (c1, u1) assignment row. -/
theorem C3_assignment_check_witness :
    (checkAssignment "employee" (some ⟨"u1", "Nia", "nia@x.com"⟩) (some "c1")
        (fun c u => c == "c1" && u == "u1")).1 = true :=
  ((C3_assignment_check "employee" (some ⟨"u1", "Nia", "nia@x.com"⟩) (some "c1")
      (fun c u => c == "c1" && u == "u1")).2 (by decide) (by decide)).2
    ⟨"u1", "Nia", "nia@x.com"⟩ "c1" rfl rfl (by decide) (by decide) |>.trans (by decide)

/-- C5: the quotation query of `loadClientData` carries the
`status = approved` constraint exactly when the role is neither "admin"
nor "head", and no status constraint for those two roles. -/
theorem C5_quotation_status_filter (clientId role : String) :
    ((("status", "approved") ∈ quotationQueryFilters clientId role) ↔
        (role ≠ "admin" ∧ role ≠ "head"))
    ∧ ((role = "admin" ∨ role = "head") →
        quotationQueryFilters clientId role = [("client_id", clientId)]) := by
  constructor
  · by_cases h1 : role = "admin" <;> by_cases h2 : role = "head" <;>
      simp [quotationQueryFilters, h1, h2]
  · rintro (rfl | rfl) <;> simp [quotationQueryFilters]

/-- C5 witness: role "admin" gets no status constraint, role
"employee" gets the approved constraint. -/
theorem C5_quotation_status_filter_witness :
    quotationQueryFilters "c1" "admin" = [("client_id", "c1")] ∧
      ("status", "approved") ∈ quotationQueryFilters "c1" "employee" :=
  ⟨(C5_quotation_status_filter "c1" "admin").2 (Or.inl rfl),
   (C5_quotation_status_filter "c1" "employee").1.mpr (by decide)⟩

/-- C6: the standalone upload form lists only clients whose status is
the single fixed value "ecomplete", ordered by name ascending; a client
whose status is "completed" — in particular any client just updated by
the profile view's `handleStatusUpdate` — is not listed. -/
theorem C6_eligible_clients (table : List ClientRow) :
    (∀ c ∈ fetchClients table, c.status = "ecomplete")
    ∧ List.Sorted clientNameLe (fetchClients table)
    ∧ (∀ c, c.status = "completed" → c ∉ fetchClients table)
    ∧ (∀ clientId c, c ∈ fetchClients (handleStatusUpdate table clientId) →
        c.id ≠ clientId) := by
  have hmem : ∀ (t : List ClientRow) (c : ClientRow),
      c ∈ fetchClients t → c.status = "ecomplete" ∧ c ∈ t := by
    intro t c hc
    rw [fetchClients, List.mem_insertionSort, List.mem_filter] at hc
    exact ⟨by simpa using hc.2, hc.1⟩
  refine ⟨fun c hc => (hmem table c hc).1, ?_, ?_, ?_⟩
  · exact List.sorted_insertionSort clientNameLe _
  · intro c hstat hc
    rw [(hmem table c hc).1] at hstat
    exact absurd hstat (by decide)
  · intro clientId c hc
    obtain ⟨hstat, hmem2⟩ := hmem _ c hc
    simp only [handleStatusUpdate] at hmem2
    rw [List.mem_map] at hmem2
    obtain ⟨c0, _, hc0⟩ := hmem2
    by_cases hid : (c0.id == clientId) = true
    · rw [if_pos hid] at hc0
      rw [← hc0] at hstat
      simp at hstat
    · rw [if_neg hid] at hc0
      rw [← hc0]
      simpa using hid

/-- C6 witness: from a table holding an eligible client and a completed
client, only the eligible one can be listed, and after marking c1
completed it is not listed. -/
theorem C6_eligible_clients_witness :
    (⟨"c2", "Bob", "Co", "Addr", "completed"⟩ : ClientRow) ∉
        fetchClients [⟨"c1", "Alice", "Co", "Addr", "ecomplete"⟩,
          ⟨"c2", "Bob", "Co", "Addr", "completed"⟩] :=
  (C6_eligible_clients [⟨"c1", "Alice", "Co", "Addr", "ecomplete"⟩,
      ⟨"c2", "Bob", "Co", "Addr", "completed"⟩]).2.2.1
    ⟨"c2", "Bob", "Co", "Addr", "completed"⟩ rfl

/-- C7: for every prior state, logout invokes the store's logout,
clears local and session persisted storage, and navigates to the login
route. -/
theorem C7_logout (s : AppState) :
    (handleLogout s).2 =
        [.storeLogout, .localStorageClear, .sessionStorageClear, .navigate "/login"]
    ∧ (handleLogout s).1.localStorage = []
    ∧ (handleLogout s).1.sessionStorage = []
    ∧ (handleLogout s).1.route = "/login"
    ∧ (handleLogout s).1.storeUser = none := by
  simp [handleLogout, storeLogoutAction]

/-- C8: visibility of the privileged controls is a pure function of the
role string: the Completed action and contact Edit exactly for
"finance.employee", document delete exactly for "admin" or
"finance.employee", and an unprivileged role sees none of them. -/
theorem C8_role_visibility (role : String) :
    (showCompletedButton role = true ↔ role = "finance.employee")
    ∧ (showContactEditButton role = true ↔ role = "finance.employee")
    ∧ (showDeleteDocumentButton role = true ↔
        (role = "admin" ∨ role = "finance.employee"))
    ∧ (role ≠ "admin" → role ≠ "finance.employee" →
        showCompletedButton role = false ∧ showContactEditButton role = false ∧
          showDeleteDocumentButton role = false) := by
  refine ⟨by simp [showCompletedButton], by simp [showContactEditButton],
    by simp [showDeleteDocumentButton], fun h1 h2 => ?_⟩
  refine ⟨?_, ?_, ?_⟩ <;>
    simp [showCompletedButton, showContactEditButton, showDeleteDocumentButton, h1, h2]

/-- C8 witness: the unprivileged role "employee" sees none of the
privileged controls. -/
theorem C8_role_visibility_witness :
    showCompletedButton "employee" = false ∧
      showContactEditButton "employee" = false ∧
      showDeleteDocumentButton "employee" = false :=
  (C8_role_visibility "employee").2.2.2 (by decide) (by decide)

/-- C10: `loadClientData` updates only the client and contactPersons
view state; its result does not depend on the quotations table (or on
the role, which only shapes the unexecuted quotation query), the rest
of the view state is untouched, and no executed remote call targets the
quotations table. -/
theorem C10_load_client_data_frame (db1 db2 : Db) (clientId role1 role2 : String)
    (st : ProfileState)
    (hc : db1.clients = db2.clients)
    (hp : db1.contact_persons = db2.contact_persons) :
    loadClientData db1 clientId role1 st = loadClientData db2 clientId role2 st
    ∧ (loadClientData db1 clientId role1 st).1.documentsShown = st.documentsShown
    ∧ (loadClientData db1 clientId role1 st).1.isAssigned = st.isAssigned
    ∧ (∀ fs, Effect.dbSelect "quotations" fs ∉ (loadClientData db1 clientId role1 st).2) := by
  refine ⟨by simp [loadClientData, hc, hp], rfl, rfl, ?_⟩
  intro fs hmem
  simp [loadClientData] at hmem

/-- C10 witness: two backends differing only in the quotations table
(and two different roles) produce identical load results. -/
theorem C10_load_client_data_frame_witness :
    loadClientData ⟨[⟨"c1", "Alice", "Co", "Addr", "active"⟩], [], []⟩ "c1" "admin"
        ⟨none, [], [], false⟩ =
      loadClientData
        ⟨[⟨"c1", "Alice", "Co", "Addr", "active"⟩], [],
          [⟨"q1", "c1", "draft", "5", "d1", "d2", "desc"⟩]⟩ "c1" "employee"
        ⟨none, [], [], false⟩ :=
  (C10_load_client_data_frame _ _ "c1" "admin" "employee" _ rfl rfl).1

/-- `contains = false` on a string list means non-membership. -/
theorem notMemOfContainsFalse {l : List String} {a : String}
    (h : l.contains a = false) : a ∉ l := by
  intro hmem
  have ht : l.elem a = true := List.elem_iff.mpr hmem
  simp only [List.contains] at h
  rw [ht] at h
  exact absurd h (by decide)

/-- `contains = true` on a string list means membership. -/
theorem memOfContainsTrue {l : List String} {a : String}
    (h : l.contains a = true) : a ∈ l :=
  List.elem_iff.mp h

/-- Associativity of string append, used to regroup body templates. -/
theorem strAppendAssoc (a b c : String) : a ++ b ++ c = a ++ (b ++ c) := by
  cases a with
  | mk l1 =>
    cases b with
    | mk l2 =>
      cases c with
      | mk l3 =>
        show String.mk (l1 ++ l2 ++ l3) = String.mk (l1 ++ (l2 ++ l3))
        rw [List.append_assoc]

/-- C1: a confirmed document delete removes the stored object first and
only deletes the database row after that succeeded; any failure is
logged, never alerted; after full success the document list is reloaded
and no longer contains the deleted document. -/
theorem C1_delete_document (s : DocServerState) (clientId documentId filePath : String)
    (out : DeleteOutcomes) :
    (∀ msg, out.storageError = some msg →
        (handleDeleteDocument s clientId documentId filePath true out).effects =
            [.storageRemove "documents" [filePath],
             .consoleError ("Error deleting document: " ++ msg)]
        ∧ (handleDeleteDocument s clientId documentId filePath true out).reloadedDocuments = none
        ∧ (handleDeleteDocument s clientId documentId filePath true out).server = s)
    ∧ (∀ msg, out.storageError = none → out.dbError = some msg →
        (handleDeleteDocument s clientId documentId filePath true out).effects =
            [.storageRemove "documents" [filePath],
             .dbDelete "documents" [("id", documentId)],
             .consoleError ("Error deleting document: " ++ msg)]
        ∧ (handleDeleteDocument s clientId documentId filePath true out).reloadedDocuments = none)
    ∧ alertsOf (handleDeleteDocument s clientId documentId filePath true out).effects = []
    ∧ (out.storageError = none → out.dbError = none →
        (handleDeleteDocument s clientId documentId filePath true out).effects =
            [.storageRemove "documents" [filePath],
             .dbDelete "documents" [("id", documentId)],
             loadDocumentsQuery clientId]
        ∧ ∃ docs,
            (handleDeleteDocument s clientId documentId filePath true out).reloadedDocuments =
                some docs
              ∧ ∀ d ∈ docs, d.id ≠ documentId) := by
  obtain ⟨se, de⟩ := out
  refine ⟨?_, ?_, ?_, ?_⟩
  · rintro msg rfl
    exact ⟨rfl, rfl, rfl⟩
  · rintro msg rfl rfl
    exact ⟨rfl, rfl⟩
  · cases se <;> cases de <;> rfl
  · rintro rfl rfl
    refine ⟨rfl, _, rfl, ?_⟩
    intro d hd
    rw [documentsFor, List.mem_insertionSort, List.mem_filter] at hd
    have hf := List.of_mem_filter hd.1
    simpa using hf

/-- C1 witness: a fully successful delete of document d1 reloads a list
that no longer contains it. -/
theorem C1_delete_document_witness :
    ∃ docs,
      (handleDeleteDocument
          ⟨[⟨"d1", "c1", "u1", "quotation", "", "f.pdf", "U", "p1",
              "application/pdf", 3, 5⟩], ["p1"]⟩
          "c1" "d1" "p1" true ⟨none, none⟩).reloadedDocuments = some docs
        ∧ ∀ d ∈ docs, d.id ≠ "d1" :=
  ((C1_delete_document
      ⟨[⟨"d1", "c1", "u1", "quotation", "", "f.pdf", "U", "p1",
          "application/pdf", 3, 5⟩], ["p1"]⟩
      "c1" "d1" "p1" ⟨none, none⟩).2.2.2 rfl rfl).2

/-- C2 (amended): an upload with a selected file and a session user
performs, in order: bucket-list check, bucket creation when the
`documents` bucket is missing from the returned list (or the check
returned no data), upload under `userId/timestamp.ext`, public-URL
retrieval, metadata-row insert referencing that URL and path, reload;
a failure of the upload or of the insert surfaces an alert containing
the error message (failures of the bucket check or bucket creation are
ignored and not surfaced). -/
theorem C2_upload_document (clientId : String) (u : SessionUser) (f : FileData)
    (docType descr : String) (now : Nat) (out : UploadOutcomes)
    (hu : u.id.isEmpty = false) :
    ((Effect.storageCreateBucket "documents" ∈
        handleUploadDocument clientId (some u) (some f) docType descr now out) ↔
      (out.bucketList.getD []).contains "documents" = false)
    ∧ (∀ m, out.uploadError = some m →
        handleUploadDocument clientId (some u) (some f) docType descr now out =
          Effect.storageListBuckets ::
            (if (out.bucketList.getD []).contains "documents" then []
             else [Effect.storageCreateBucket "documents"]) ++
            [.storageUpload "documents"
                (u.id ++ "/" ++ toString now ++ "." ++ fileExtOf f.name),
             .consoleError ("Error uploading document: " ++ m),
             .alertBox ("Upload failed: " ++ m)])
    ∧ (∀ m, out.uploadError = none → out.insertError = some m →
        handleUploadDocument clientId (some u) (some f) docType descr now out =
          Effect.storageListBuckets ::
            (if (out.bucketList.getD []).contains "documents" then []
             else [Effect.storageCreateBucket "documents"]) ++
            [.storageUpload "documents"
                (u.id ++ "/" ++ toString now ++ "." ++ fileExtOf f.name),
             .storageGetPublicUrl "documents"
                (u.id ++ "/" ++ toString now ++ "." ++ fileExtOf f.name),
             .dbInsertDocument (uploadRow clientId u.id f docType descr now out),
             .consoleError ("Error uploading document: " ++ m),
             .alertBox ("Upload failed: " ++ m)])
    ∧ (out.uploadError = none → out.insertError = none →
        handleUploadDocument clientId (some u) (some f) docType descr now out =
          Effect.storageListBuckets ::
            (if (out.bucketList.getD []).contains "documents" then []
             else [Effect.storageCreateBucket "documents"]) ++
            [.storageUpload "documents"
                (u.id ++ "/" ++ toString now ++ "." ++ fileExtOf f.name),
             .storageGetPublicUrl "documents"
                (u.id ++ "/" ++ toString now ++ "." ++ fileExtOf f.name),
             .dbInsertDocument (uploadRow clientId u.id f docType descr now out),
             loadDocumentsQuery clientId]
        ∧ (uploadRow clientId u.id f docType descr now out).file_url = out.publicUrl
        ∧ (uploadRow clientId u.id f docType descr now out).file_path =
            u.id ++ "/" ++ toString now ++ "." ++ fileExtOf f.name
        ∧ (uploadRow clientId u.id f docType descr now out).employee_id = u.id) := by
  obtain ⟨bl, cbe, ue, ie, pu⟩ := out
  refine ⟨?_, ?_, ?_, ?_⟩
  · cases hcont : (bl.getD []).contains "documents" <;>
      cases ue <;> cases ie <;>
        simp [handleUploadDocument, hu, hcont, loadDocumentsQuery] <;>
      first
        | exact notMemOfContainsFalse hcont
        | exact memOfContainsTrue hcont
  · rintro m rfl
    simp [handleUploadDocument, hu]
  · rintro m rfl rfl
    simp [handleUploadDocument, hu]
  · rintro rfl rfl
    exact ⟨by simp [handleUploadDocument, hu], rfl, rfl, rfl⟩

/-- C2 witness: fully successful upload with the bucket already
present: the five calls happen in order and the inserted row references
the retrieved URL and the `userId/timestamp.ext` path. -/
theorem C2_upload_document_witness :
    handleUploadDocument "c1" (some ⟨"u1", "Nia", "nia@x.com"⟩)
        (some ⟨"a.pdf", "application/pdf", 3⟩) "quotation" "" 7
        ⟨some ["documents"], none, none, none, "URL"⟩ =
      [Effect.storageListBuckets,
       .storageUpload "documents" "u1/7.pdf",
       .storageGetPublicUrl "documents" "u1/7.pdf",
       .dbInsertDocument ⟨"c1", "u1", "quotation", "", "a.pdf", "URL", "u1/7.pdf",
          "application/pdf", 3⟩,
       .dbSelect "documents" [("client_id", "c1")]] :=
  (((C2_upload_document "c1" ⟨"u1", "Nia", "nia@x.com"⟩
      ⟨"a.pdf", "application/pdf", 3⟩ "quotation" "" 7
      ⟨some ["documents"], none, none, none, "URL"⟩ (by decide)).2.2.2 rfl rfl).1).trans
    (by decide)

/-- C2 counterexample to the claim as stated: when the bucket-existence
check itself fails (`listBuckets` returns no data) and every later step
succeeds, a step has failed yet no user-visible alert is shown, because
the code never reads the error of `listBuckets` or `createBucket`. -/
theorem C2_upload_document_counterexample :
    (⟨none, some "network error", none, none, "URL"⟩ : UploadOutcomes).bucketList = none
    ∧ alertsOf (handleUploadDocument "c1" (some ⟨"u1", "Nia", "nia@x.com"⟩)
        (some ⟨"a.pdf", "application/pdf", 3⟩) "quotation" "" 7
        ⟨none, some "network error", none, none, "URL"⟩) = [] := by
  exact ⟨rfl, rfl⟩

/-- C4 (amended): a no-file submission is rejected before any remote
call in both upload paths; the standalone form records the upload error
"Please select a file to upload", while the profile-view handler
returns silently with no effect at all. -/
theorem C4_no_file_rejected (data : DocumentData) (user : Option SessionUser)
    (now : Nat) (sout : SubmitOutcomes) (clientId : String)
    (user2 : Option SessionUser) (docType descr : String) (now2 : Nat)
    (uout : UploadOutcomes) (hf : data.file = none) :
    (handleSubmit data user now sout).effects = []
    ∧ (handleSubmit data user now sout).uploadErrorMsg =
        some "Please select a file to upload"
    ∧ (handleSubmit data user now sout).uploadSuccess = false
    ∧ handleUploadDocument clientId user2 none docType descr now2 uout = [] := by
  obtain ⟨cid, eid, dt, ds, file⟩ := data
  cases hf
  refine ⟨rfl, rfl, rfl, ?_⟩
  cases user2 <;> rfl

/-- C4 witness: concrete no-file submissions through both paths. -/
theorem C4_no_file_rejected_witness :
    (handleSubmit ⟨"c1", "", "invoice", "", none⟩ none 0 ⟨none, none, "URL"⟩).effects = []
    ∧ (handleSubmit ⟨"c1", "", "invoice", "", none⟩ none 0
        ⟨none, none, "URL"⟩).uploadErrorMsg = some "Please select a file to upload"
    ∧ (handleSubmit ⟨"c1", "", "invoice", "", none⟩ none 0
        ⟨none, none, "URL"⟩).uploadSuccess = false
    ∧ handleUploadDocument "c1" none none "invoice" "" 0
        ⟨none, none, none, none, "URL"⟩ = [] :=
  C4_no_file_rejected ⟨"c1", "", "invoice", "", none⟩ none 0 ⟨none, none, "URL"⟩
    "c1" none "invoice" "" 0 ⟨none, none, none, none, "URL"⟩ rfl

/-- C4 counterexample to the claim as stated: the profile-view handler
rejects a no-file submission with no effects at all — nothing displays
"Please select a file to upload" on that path. -/
theorem C4_no_file_rejected_counterexample :
    handleUploadDocument "c1" (some ⟨"u1", "Nia", "nia@x.com"⟩) none "quotation" "" 0
        ⟨none, none, none, none, "URL"⟩ = [] := rfl

/-- C9 (amended): both send actions are client-side only: each builds a
Gmail compose deep link (an https URL carrying recipient, subject and
body as query parameters) whose prefilled subject and body summarize
the document or quotation (type, description, amounts, sender name and
email) and opens it in a new browsing context; no remote database or
storage call is made. -/
theorem C9_send_actions (user : Option SessionUser) (d : DocumentView)
    (contactEmail : String) (fmtDate : String → String) (email : String)
    (q : QuotationView) :
    handleSendDocument user d contactEmail =
        [.openWindow (gmailComposeUrl contactEmail (sendDocumentSubject d)
            (sendDocumentBody user d))]
    ∧ (∀ e ∈ handleSendDocument user d contactEmail, e.isRemoteCall = false)
    ∧ (∃ p1 p2 p3, sendDocumentBodyPlain user d =
        p1 ++ d.document_type ++ p2 ++
          (if d.description.isEmpty then "N/A" else d.description) ++ p3 ++
          senderName user ++ "\n" ++ senderEmail user)
    ∧ handleSendEmail fmtDate user email q =
        [.openWindow (gmailComposeUrl email (sendEmailSubject q)
            (sendEmailBody fmtDate user q))]
    ∧ (∀ e ∈ handleSendEmail fmtDate user email q, e.isRemoteCall = false)
    ∧ (∃ p1 p2 p3 p4, sendEmailBodyPlain fmtDate user q =
        p1 ++ q.amount ++ p2 ++ q.description ++ p3 ++
          String.intercalate "\n" (q.quotation_assets.map fun a =>
            "- " ++ a.item ++ " (Qty: " ++ toString a.quantity ++ ")") ++
          p4 ++ senderName user ++ "\n" ++ senderEmail user) := by
  refine ⟨rfl, ?_, ?_, rfl, ?_, ?_⟩
  · intro e he
    rw [handleSendDocument, List.mem_singleton] at he
    rw [he]
    rfl
  · refine ⟨"Dear Client,\n\n" ++ "Please find attached the document you requested.\n\n" ++
      "Document Type: ", "\n" ++ "Description: ", "\n\n" ++ "Best regards,\n", ?_⟩
    simp only [sendDocumentBodyPlain, strAppendAssoc]
  · intro e he
    rw [handleSendEmail, List.mem_singleton] at he
    rw [he]
    rfl
  · refine ⟨"Dear Client,\n\n" ++ "Please find below the document:\n\n" ++ "Amount: ₹",
      "/-\n" ++ "Valid From: " ++ fmtDate q.start_date ++ "\n" ++ "Valid Until: " ++
        fmtDate q.end_date ++ "\n" ++ "Description: ",
      "\n\n" ++ "Assets Included:\n", "\n\n" ++ "Best regards,\n", ?_⟩
    simp only [sendEmailBodyPlain, strAppendAssoc]

/-- C9 witness: the single effect of a concrete send-document action is
not a remote call. -/
theorem C9_send_actions_witness :
    (Effect.openWindow (gmailComposeUrl "c@x.com"
        (sendDocumentSubject ⟨"f.pdf", "invoice", "d"⟩)
        (sendDocumentBody none ⟨"f.pdf", "invoice", "d"⟩))).isRemoteCall = false :=
  (C9_send_actions none ⟨"f.pdf", "invoice", "d"⟩ "c@x.com" id "e@x.com"
      ⟨"q1", "5", "a", "b", "c", []⟩).2.1 _ (List.mem_singleton.mpr rfl)

set_option maxRecDepth 4000

/-- C9 counterexample to the claim as stated: the link opened for a
concrete document is not a `mailto:` deep link; it is a Gmail compose
https URL. -/
theorem C9_send_actions_counterexample :
    handleSendDocument (some ⟨"u1", "Ann Lee", "ann@x.com"⟩)
        ⟨"q.pdf", "quotation", ""⟩ "client@example.com" =
      [Effect.openWindow (gmailComposeUrl "client@example.com"
          (sendDocumentSubject ⟨"q.pdf", "quotation", ""⟩)
          (sendDocumentBody (some ⟨"u1", "Ann Lee", "ann@x.com"⟩)
            ⟨"q.pdf", "quotation", ""⟩))]
    ∧ (gmailComposeUrl "client@example.com"
        (sendDocumentSubject ⟨"q.pdf", "quotation", ""⟩)
        (sendDocumentBody (some ⟨"u1", "Ann Lee", "ann@x.com"⟩)
          ⟨"q.pdf", "quotation", ""⟩)).toList.take 7 ≠ "mailto:".toList
    ∧ (gmailComposeUrl "client@example.com"
        (sendDocumentSubject ⟨"q.pdf", "quotation", ""⟩)
        (sendDocumentBody (some ⟨"u1", "Ann Lee", "ann@x.com"⟩)
          ⟨"q.pdf", "quotation", ""⟩)).toList.take 30 =
        "https://mail.google.com/mail/?".toList := by
  exact ⟨rfl, by decide, by decide⟩

end PDTech
